import Mathlib

/-!
Verification of the webgrab extraction engine (grab.go).

The Go source scrapes an HTML document into a struct guided by struct
tags.  We shallowly embed the core of grab.go:

* `Regex` / `mrun` / `findFrom` model the Go standard `regexp` package
  (leftmost-first matching with capture groups, as used through
  `MatchString` and `FindStringSubmatch`).  Pattern strings compiled by
  `regexp.MustCompile` are represented by their abstract syntax trees;
  the Go code never inspects the pattern string other than testing it
  against the empty string, which we model with `Option Regex`.
* `Document` / `Node` model the external goquery selector engine: a
  document maps a selector to the ordered list of matched nodes, each
  exposing its text and attributes.  goquery returns an empty selection
  for an empty (invalid) selector, which `Document.find` encodes.
* `Grabber.filter`, `Grabber.extract`, `Grabber.clean`,
  `Grabber.scrape`, `Grabber.scrapeSlice`, `Grabber.scrapeStruct`
  are direct translations of the same-named methods of grab.go (the
  `Grabber` receiver carries only network configuration and is unused
  by these methods, so it is not threaded through).
  Go panics (out-of-bounds group access in `extract`, and
  `reflect.Value.SetString` on a non-string slice element in
  `scrapeStruct`) are modelled by `Option`: `none` is a panic.
-/

/-- Abstract syntax of a compiled Go regular expression (the fragment
relevant to this code base): empty string, literal character, any
character (Go `.`, which does not match a newline), concatenation,
alternation, greedy star, and a capturing group.  Capture groups are
numbered in pattern order starting at 1, as in Go. -/
inductive Regex where
  | emp : Regex
  | char (c : Char) : Regex
  | any : Regex
  | cat (r1 r2 : Regex) : Regex
  | alt (r1 r2 : Regex) : Regex
  | star (r : Regex) : Regex
  | group (r : Regex) : Regex
deriving Repr, DecidableEq

/-- Number of capturing groups of a pattern (Go `NumSubexp`). -/
def Regex.numGroups : Regex → Nat
  | .emp => 0
  | .char _ => 0
  | .any => 0
  | .cat r1 r2 => r1.numGroups + r2.numGroups
  | .alt r1 r2 => r1.numGroups + r2.numGroups
  | .star r => r.numGroups
  | .group r => r.numGroups + 1

/-- Structural size of a pattern, used to compute a fuel bound for the
backtracking matcher. -/
def Regex.size : Regex → Nat
  | .emp => 1
  | .char _ => 1
  | .any => 1
  | .cat r1 r2 => r1.size + r2.size + 1
  | .alt r1 r2 => r1.size + r2.size + 1
  | .star r => r.size + 1
  | .group r => r.size + 1

/-- Greedy plus, `r+`, as sugar: `r` followed by `r*`. -/
def Regex.plus (r : Regex) : Regex := Regex.cat r (Regex.star r)

/-- A literal string as a regex (concatenation of its characters). -/
def strLit (s : String) : Regex :=
  s.data.foldr (fun c r => Regex.cat (Regex.char c) r) Regex.emp

/-- Capture environment: group index paired with captured characters;
the most recent binding of an index shadows older ones. -/
abbrev Caps := List (Nat × List Char)

/-- Record a capture for group `i`. -/
def setCap (caps : Caps) (i : Nat) (v : List Char) : Caps := (i, v) :: caps

/-- Look up group `i`; an unset (non-participating) group reads as the
empty string, as Go's `FindStringSubmatch` reports it. -/
def capOr (caps : Caps) (i : Nat) : List Char :=
  match caps.find? (fun p => p.1 == i) with
  | some p => p.2
  | none => []

/-- Backtracking leftmost-first matcher with continuations, the
semantics Go's regexp engine gives to the operators above.  `gi` is the
index of the first capture group inside `r`; `k` receives the remaining
input and captures.  `fuel` bounds recursion depth; a star iteration
that consumes no input is cut off, as a regex engine does not loop on
empty matches. -/
def mrun : Nat → Regex → Nat → List Char → Caps →
    (List Char → Caps → Option (List Char × Caps)) → Option (List Char × Caps)
  | 0, _, _, _, _, _ => none
  | Nat.succ fuel, r, gi, s, caps, k =>
    match r with
    | .emp => k s caps
    | .char c =>
      match s with
      | [] => none
      | c2 :: rest => if c2 = c then k rest caps else none
    | .any =>
      match s with
      | [] => none
      | c2 :: rest => if c2 = '\n' then none else k rest caps
    | .cat r1 r2 =>
      mrun fuel r1 gi s caps (fun s2 caps2 => mrun fuel r2 (gi + r1.numGroups) s2 caps2 k)
    | .alt r1 r2 =>
      match mrun fuel r1 gi s caps k with
      | some res => some res
      | none => mrun fuel r2 (gi + r1.numGroups) s caps k
    | .star r1 =>
      match mrun fuel r1 gi s caps (fun s2 caps2 =>
          if s2.length = s.length then none
          else mrun fuel (.star r1) gi s2 caps2 k) with
      | some res => some res
      | none => k s caps
    | .group r1 =>
      mrun fuel r1 (gi + 1) s caps (fun s2 caps2 =>
        k s2 (setCap caps2 gi (s.take (s.length - s2.length))))

/-- Try to match `r` against a prefix of `t`; on success return the
unconsumed suffix and the captures. -/
def attemptAt (r : Regex) (t : List Char) : Option (List Char × Caps) :=
  mrun ((t.length + 2) * (r.size + 2) + 2) r 1 t [] (fun rest caps => some (rest, caps))

/-- Leftmost match: try each start position left to right; on success
return the matched characters and the captures. -/
def findFrom (r : Regex) : List Char → Option (List Char × Caps)
  | [] =>
    match attemptAt r [] with
    | some (_, caps) => some ([], caps)
    | none => none
  | c :: t2 =>
    match attemptAt r (c :: t2) with
    | some (rest, caps) =>
      some ((c :: t2).take ((c :: t2).length - rest.length), caps)
    | none => findFrom r t2

/-- Model of Go `regexp.MatchString`: does the pattern match anywhere
in the string? -/
def Regexp.matchString (re : Regex) (s : String) : Bool :=
  (findFrom re s.data).isSome

/-- Model of Go `regexp.FindStringSubmatch`: `[]` when there is no
match, otherwise the full match followed by one entry per capture
group (empty string for a group that did not participate). -/
def Regexp.findStringSubmatch (re : Regex) (s : String) : List String :=
  match findFrom re s.data with
  | none => []
  | some (m, caps) =>
    String.mk m :: (List.range re.numGroups).map (fun i => String.mk (capOr caps (i + 1)))

/-- Go `unicode.IsSpace` on the characters `strings.TrimSpace` trims
(ASCII whitespace and the Latin-1 space characters). -/
def goIsSpace (c : Char) : Bool :=
  c == ' ' || c == '\t' || c == '\n' || c == Char.ofNat 11 ||
  c == Char.ofNat 12 || c == '\r' || c == Char.ofNat 133 || c == Char.ofNat 160

/-- Model of Go `strings.TrimSpace`. -/
def trimSpace (s : String) : String :=
  String.mk (((s.data.dropWhile goIsSpace).reverse.dropWhile goIsSpace).reverse)

/-- A node of the parsed document, as goquery exposes it to grab.go:
its text and its attributes. -/
structure Node where
  text : String
  attrs : List (String × String)
deriving Repr, DecidableEq

/-- goquery `Selection.AttrOr`: the named attribute's value, or the
default when the node lacks the attribute. -/
def Node.attrOr (n : Node) (name : String) (dflt : String) : String :=
  match n.attrs.find? (fun p => p.1 == name) with
  | some p => p.2
  | none => dflt

/-- The external selector engine: a selector resolves to an ordered
list of matched nodes (document order). -/
structure Document where
  findRaw : String → List Node

/-- goquery `Document.Find`.  An empty selector is an invalid selector;
goquery compiles it to a matcher that matches nothing, so the selection
is empty. -/
def Document.find (d : Document) (sel : String) : List Node :=
  if sel = "" then [] else d.findRaw sel

/-- grab.go `grabTag`, restricted to the fields the scraping functions
read (`Field` and `FieldType` are represented positionally by the
record model below).  Go stores `Extract` and `Filter` as pattern
strings and tests them against `""` before compiling; `none` stands
for the empty (absent) pattern and `some re` for a non-empty pattern
together with its compiled form. -/
structure GrabTag where
  selector : String
  attr : String
  extract : Option Regex
  filter : Option Regex
deriving Repr, DecidableEq

/-- The two error values grab.go's scraping functions construct (their
messages carry the selector respectively the filter pattern). -/
inductive GrabErr where
  | tagNotFound (selector : String)
  | filterMismatch
deriving Repr, DecidableEq

/-- grab.go `Grabber.filter`: does the value match the filter regex? -/
def Grabber.filter (str : String) (regex : Regex) : Bool :=
  Regexp.matchString regex str

/-- grab.go `Grabber.extract`: first submatch of the regex; the string
`"(no match)"` when the regex does not match.  `match[1]` is an
out-of-bounds access (a Go panic, modelled as `none`) when the match
exists but the pattern has no capture group. -/
def Grabber.extract (str : String) (regex : Regex) : Option String :=
  let m := Regexp.findStringSubmatch regex str
  if m.length = 0 then some "(no match)"
  else m.get? 1

/-- grab.go `Grabber.clean`: apply the extract regex when one is
configured, then trim whitespace.  Propagates `extract`'s panic. -/
def Grabber.clean (str : String) (tag : GrabTag) : Option String :=
  match tag.extract with
  | none => some (trimSpace str)
  | some re => (Grabber.extract str re).map trimSpace

/-- grab.go `Grabber.scrape` (scalar fields): resolve the selector;
zero matches is an error; more than one match keeps the first; a
configured filter is tested against the node's text; the result is the
cleaned text, or the cleaned attribute value when an attribute is
configured. -/
def Grabber.scrape (doc : Document) (tag : GrabTag) : Option (Except GrabErr String) :=
  match doc.find tag.selector with
  | [] => some (Except.error (GrabErr.tagNotFound tag.selector))
  | n :: _ =>
    let fin : Option (Except GrabErr String) :=
      if tag.attr = "" then (Grabber.clean n.text tag).map Except.ok
      else (Grabber.clean (n.attrOr tag.attr "") tag).map Except.ok
    match tag.filter with
    | some re =>
      if Grabber.filter n.text re then fin
      else some (Except.error GrabErr.filterMismatch)
    | none => fin

/-- Body of the `sel.Each` closure in grab.go `Grabber.scrapeSlice`:
the contribution of one node — `[]` when the filter rejects it, one
cleaned value otherwise (`none` when `clean` panics). -/
def Grabber.scrapeSliceItem (tag : GrabTag) (n : Node) : Option (List String) :=
  if tag.attr = "" then
    match tag.filter with
    | some re =>
      if Grabber.filter n.text re then (Grabber.clean n.text tag).map (fun v => [v])
      else some []
    | none => (Grabber.clean n.text tag).map (fun v => [v])
  else
    match tag.filter with
    | some re =>
      if Grabber.filter (n.attrOr tag.attr "") re then
        (Grabber.clean (n.attrOr tag.attr "") tag).map (fun v => [v])
      else some []
    | none => (Grabber.clean (n.attrOr tag.attr "") tag).map (fun v => [v])

/-- The `sel.Each` loop of `Grabber.scrapeSlice` over the matched
nodes, in document order. -/
def Grabber.scrapeSliceLoop (tag : GrabTag) : List Node → Option (List String)
  | [] => some []
  | n :: rest => do
    let v ← Grabber.scrapeSliceItem tag n
    let vs ← Grabber.scrapeSliceLoop tag rest
    pure (v ++ vs)

/-- grab.go `Grabber.scrapeSlice` (sequence fields): zero matches is an
error; otherwise each matched node contributes its cleaned value unless
the filter rejects it. -/
def Grabber.scrapeSlice (doc : Document) (tag : GrabTag) : Option (Except GrabErr (List String)) :=
  match doc.find tag.selector with
  | [] => some (Except.error (GrabErr.tagNotFound tag.selector))
  | n :: rest => (Grabber.scrapeSliceLoop tag (n :: rest)).map Except.ok

mutual
/-- A field value of the destination record, classified by the
`reflect.Kind` switch in grab.go `scrapeStruct`: a string-kinded
scalar, a slice of string-kinded elements, a slice of non-string
elements (its length is all the walker can affect), a scalar of any
other kind (opaque: the walker never touches it), or a nested struct. -/
inductive Value where
  | vString (s : String) : Value
  | vStrSlice (xs : List String) : Value
  | vOtherSlice (len : Nat) : Value
  | vOther : Value
  | vStruct (fields : Fields) : Value

/-- The fields of a record, in declaration order, each with its parsed
grab tag. -/
inductive Fields where
  | nil : Fields
  | cons (tag : GrabTag) (v : Value) (rest : Fields) : Fields
end

mutual
/-- One iteration of the field loop of grab.go `scrapeStruct`: a
struct field recurses with the same document; a slice field runs
`scrapeSlice` and on error is skipped unchanged, while a success is
written element-wise with `reflect.Value.SetString` — a panic
(`none`) when the element kind is not string and there is at least one
element; a string field runs `scrape` and on error is skipped
unchanged; any other kind is ignored. -/
def Grabber.scrapeField (doc : Document) (tag : GrabTag) : Value → Option Value
  | .vString s =>
    match Grabber.scrape doc tag with
    | none => none
    | some (.error _) => some (.vString s)
    | some (.ok str) => some (.vString str)
  | .vStrSlice xs =>
    match Grabber.scrapeSlice doc tag with
    | none => none
    | some (.error _) => some (.vStrSlice xs)
    | some (.ok strs) => some (.vStrSlice strs)
  | .vOtherSlice len =>
    match Grabber.scrapeSlice doc tag with
    | none => none
    | some (.error _) => some (.vOtherSlice len)
    | some (.ok []) => some (.vOtherSlice 0)
    | some (.ok (_ :: _)) => none
  | .vOther => some .vOther
  | .vStruct fields => (Grabber.scrapeFields doc fields).map Value.vStruct

/-- The field loop of grab.go `scrapeStruct`, over the record's fields
in declaration order. -/
def Grabber.scrapeFields (doc : Document) : Fields → Option Fields
  | .nil => some .nil
  | .cons tag v rest => do
    let v2 ← Grabber.scrapeField doc tag v
    let rest2 ← Grabber.scrapeFields doc rest
    pure (.cons tag v2 rest2)
end

/-- grab.go `Grabber.scrapeStruct`: run the field loop and return the
mutated record together with the function's error result, which is the
literal `return nil` — `none` — on every return path. -/
def Grabber.scrapeStruct (doc : Document) (fields : Fields) :
    Option (Fields × Option GrabErr) :=
  (Grabber.scrapeFields doc fields).map (fun fs => (fs, (none : Option GrabErr)))

/-- Is the value a nested record (Go `reflect.Struct` kind)? -/
def Value.isStructKind : Value → Bool
  | .vStruct _ => true
  | _ => false

/-- The candidate value `scrapeSlice` both filters and stores for a
node: the node's text when no attribute is configured, the named
attribute's value otherwise. -/
def candidate (tag : GrabTag) (n : Node) : String :=
  if tag.attr = "" then n.text else n.attrOr tag.attr ""

/-- A record nested `k` levels deep: `k` wrappers, each a struct with
one field carrying tag `tag`, around the value `v`. -/
def nestK (tag : GrabTag) : Nat → Value → Value
  | 0, v => v
  | k + 1, v => Value.vStruct (Fields.cons tag (nestK tag k v) Fields.nil)

/-- The compiled form of the pattern string `"(.+) - Suffix"`. -/
def suffixPat : Regex :=
  Regex.cat (Regex.group (Regex.plus Regex.any)) (strLit " - Suffix")

/-- `FindStringSubmatch` either reports no match or a list of exactly
one entry per capture group plus the full match. -/
theorem findStringSubmatch_cases (re : Regex) (s : String) :
    Regexp.findStringSubmatch re s = [] ∨
    (Regexp.findStringSubmatch re s).length = re.numGroups + 1 := by
  unfold Regexp.findStringSubmatch
  cases findFrom re s.data with
  | none => exact Or.inl rfl
  | some p =>
    right
    obtain ⟨m, caps⟩ := p
    simp

/-- C4: for every input string, when an extract pattern is configured,
a match turns the value into the pattern's first capturing group and a
miss turns it into the fixed sentinel string `"(no match)"`; concretely
for the pattern `"(.+) - Suffix"`, `"Example - Suffix"` yields
`"Example"` and `"NoMatch"` yields the sentinel, not an error. -/
theorem extract_capture_or_sentinel :
    (∀ (s : String) (re : Regex),
      (Regexp.findStringSubmatch re s = [] ∧ Grabber.extract s re = some "(no match)") ∨
      ((Regexp.findStringSubmatch re s).isEmpty = false ∧
        Grabber.extract s re = (Regexp.findStringSubmatch re s).get? 1)) ∧
    Grabber.extract "Example - Suffix" suffixPat = some "Example" ∧
    Grabber.extract "NoMatch" suffixPat = some "(no match)" := by
  refine ⟨?_, by decide, by decide⟩
  intro s re
  cases hf : Regexp.findStringSubmatch re s with
  | nil => exact Or.inl ⟨rfl, by simp [Grabber.extract, hf]⟩
  | cons a t => exact Or.inr ⟨by simp, by simp [Grabber.extract, hf]⟩

/-- C10: `extract` is total (first capture group or the sentinel) for
every pattern with at least one capturing group; for a pattern with no
capturing group that matches, the access `match[1]` is out of bounds —
a panic, modelled as `none`. -/
theorem extract_total_iff_capture_group :
    (∀ (s : String) (re : Regex), 1 ≤ re.numGroups →
      (Grabber.extract s re).isSome = true) ∧
    Grabber.extract "a" (Regex.char 'a') = none := by
  constructor
  · intro s re h
    simp only [Grabber.extract]
    rcases findStringSubmatch_cases re s with h0 | hlen
    · simp [h0]
    · rw [if_neg (by omega)]
      cases hq : (Regexp.findStringSubmatch re s).get? 1 with
      | none => rw [List.get?_eq_none] at hq; omega
      | some v => rfl
  · decide

/-- Witness for C10: a one-group pattern on a concrete input. -/
theorem extract_total_iff_capture_group_witness :
    1 ≤ (Regex.group (Regex.char 'b')).numGroups ∧
    (Grabber.extract "xb" (Regex.group (Regex.char 'b'))).isSome = true :=
  ⟨by decide, extract_total_iff_capture_group.1 "xb" (Regex.group (Regex.char 'b')) (by decide)⟩

/-- C9: the struct walk either panics or returns the mutated record
together with the error `nil`: per-field failures are skipped and
never surface in the error returned by `scrapeStruct`. -/
theorem scrapeStruct_error_always_nil (doc : Document) (fields : Fields) :
    Grabber.scrapeStruct doc fields = none ∨
    ∃ fs, Grabber.scrapeStruct doc fields = some (fs, none) := by
  unfold Grabber.scrapeStruct
  cases Grabber.scrapeFields doc fields with
  | none => exact Or.inl rfl
  | some fs => exact Or.inr ⟨fs, rfl⟩

/-- C5: the value a scalar field extracts is determined by the first
matched node alone — two documents whose selections share the same
first node (whatever the tails) give the same result, so with more
than one match the first node in document order is used, and the
choice is stable. -/
theorem scrape_uses_first_node (doc doc2 : Document) (tag : GrabTag) (n : Node)
    (l l2 : List Node) (h1 : doc.find tag.selector = n :: l)
    (h2 : doc2.find tag.selector = n :: l2) :
    Grabber.scrape doc tag = Grabber.scrape doc2 tag := by
  unfold Grabber.scrape
  rw [h1, h2]

/-- First node for the C5 witness. -/
def nodeA : Node := Node.mk "A" []

/-- Second node for the C5 witness. -/
def nodeB : Node := Node.mk "B" []

/-- A document where the selector matches two nodes. -/
def docFirstBoth : Document := Document.mk (fun _ => [nodeA, nodeB])

/-- A document where the selector matches only the first node. -/
def docFirstOnly : Document := Document.mk (fun _ => [nodeA])

/-- A plain scalar tag with selector `p`. -/
def tagP : GrabTag := GrabTag.mk "p" "" none none

/-- Witness for C5: dropping the second matched node does not change
the scraped value. -/
theorem scrape_uses_first_node_witness :
    Grabber.scrape docFirstBoth tagP = Grabber.scrape docFirstOnly tagP :=
  scrape_uses_first_node docFirstBoth docFirstOnly tagP nodeA [nodeB] [] rfl rfl

/-- Mapping `Except.ok` over an option never produces an error value. -/
theorem map_ok_ne_error (o : Option String) (e : GrabErr) :
    o.map Except.ok ≠ some (Except.error e) := by
  cases o <;> simp

/-- The filter pattern used by the C1 counterexample. -/
def htmlPat : Regex := strLit "html"

/-- A node whose text does not match `htmlPat` but whose `href`
attribute does. -/
def nodeHref : Node := Node.mk "linktext" [("href", "x.html")]

/-- A document whose every selector resolves to `nodeHref`. -/
def docHref : Document := Document.mk (fun _ => [nodeHref])

/-- A scalar tag taking the `href` attribute, filtered by `htmlPat`. -/
def tagHref : GrabTag := GrabTag.mk "a" "href" none (some htmlPat)

/-- Counterexample to C1: the candidate value that will be written is
the `href` attribute `"x.html"`, which matches the filter, yet the
field is filter-rejected, because `scrape` tests the filter against
the node's text. -/
theorem scrape_filter_candidate_cex :
    Grabber.filter (nodeHref.attrOr "href" "") htmlPat = true ∧
    Grabber.scrape docHref tagHref = some (Except.error GrabErr.filterMismatch) := by
  constructor
  · decide
  · rfl

/-- C1 amended: for scalar fields the filter is always tested against
the first matched node's text — also when an attribute is configured,
in which case the attribute value is what would be written — and the
field is filter-rejected exactly when that text does not match. -/
theorem scrape_filter_tests_first_node_text
    (doc : Document) (tag : GrabTag) (re : Regex) (n : Node) (l : List Node)
    (hfil : tag.filter = some re) (hfind : doc.find tag.selector = n :: l) :
    Grabber.scrape doc tag = some (Except.error GrabErr.filterMismatch) ↔
      Grabber.filter n.text re = false := by
  simp only [Grabber.scrape, hfind, hfil]
  by_cases h : Grabber.filter n.text re = true
  · rw [if_pos h, h]
    simp only [Bool.true_eq_false, iff_false]
    by_cases ha : tag.attr = ""
    · rw [if_pos ha]
      exact map_ok_ne_error _ _
    · rw [if_neg ha]
      exact map_ok_ne_error _ _
  · rw [if_neg h]
    rw [Bool.not_eq_true] at h
    simp [h]

/-- Witness for the amended C1: a concrete rejected scalar field. -/
theorem scrape_filter_tests_first_node_text_witness :
    Grabber.scrape docHref tagHref = some (Except.error GrabErr.filterMismatch) ↔
      Grabber.filter nodeHref.text htmlPat = false :=
  scrape_filter_tests_first_node_text docHref tagHref htmlPat nodeHref [] rfl rfl

/-- A document in which every selector matches zero nodes. -/
def docEmpty : Document := Document.mk (fun _ => [])

/-- A plain sequence tag with selector `q`. -/
def tagQ : GrabTag := GrabTag.mk "q" "" none none

/-- Counterexample to C2: a sequence field whose selector matches zero
nodes and whose prior value is `["x"]` keeps `["x"]` — the walk indeed
does not fail, but the resulting value is the old one, not an empty
sequence, because the field is skipped rather than assigned. -/
theorem seq_zero_matches_empty_cex :
    Grabber.scrapeStruct docEmpty
        (Fields.cons tagQ (Value.vStrSlice ["x"]) Fields.nil)
      = some (Fields.cons tagQ (Value.vStrSlice ["x"]) Fields.nil, none) ∧
    (["x"] : List String) ≠ [] := by
  exact ⟨rfl, by decide⟩

/-- C2 amended: for a sequence field whose selector matches zero
nodes, the walk does not fail and returns a nil error, and the field
is left unchanged — which is the empty sequence exactly when the
record started at its zero value. -/
theorem seq_zero_matches_skipped_unchanged
    (doc : Document) (tag : GrabTag) (xs : List String)
    (hfind : doc.find tag.selector = []) :
    Grabber.scrapeStruct doc (Fields.cons tag (Value.vStrSlice xs) Fields.nil)
      = some (Fields.cons tag (Value.vStrSlice xs) Fields.nil, none) := by
  simp [Grabber.scrapeStruct, Grabber.scrapeFields, Grabber.scrapeField,
    Grabber.scrapeSlice, hfind]

/-- Witness for the amended C2: a concrete skipped sequence field. -/
theorem seq_zero_matches_skipped_unchanged_witness :
    Grabber.scrapeStruct docEmpty
        (Fields.cons tagQ (Value.vStrSlice ["a", "b"]) Fields.nil)
      = some (Fields.cons tagQ (Value.vStrSlice ["a", "b"]) Fields.nil, none) :=
  seq_zero_matches_skipped_unchanged docEmpty tagQ ["a", "b"] rfl

/-- A node with text `x` and no attributes. -/
def nodeX : Node := Node.mk "x" []

/-- A document whose every selector resolves to `nodeX`. -/
def docX : Document := Document.mk (fun _ => [nodeX])

/-- A plain tag with selector `a`. -/
def tagA : GrabTag := GrabTag.mk "a" "" none none

/-- Counterexample to C3: a sequence field whose element type is not
string-kinded, with a matching selector, makes the walk panic
(`reflect.Value.SetString` on a non-string element) — the walk
crashes instead of surfacing a coercion error in its result; no
aggregate error exists. -/
theorem coercion_error_surfaced_cex :
    Grabber.scrapeStruct docX (Fields.cons tagA (Value.vOtherSlice 0) Fields.nil)
      = none := rfl

/-- C3 amended: a coercion failure is never surfaced as an error of the
walk: a sequence field of non-string element kind panics as soon as a
non-empty extraction result is written, and a scalar field of
non-string kind is silently skipped, producing neither a write nor an
error. -/
theorem coercion_failure_panics_or_skips :
    (∀ (doc : Document) (tag : GrabTag) (len : Nat) (s : String) (rest : List String),
      Grabber.scrapeSlice doc tag = some (Except.ok (s :: rest)) →
      Grabber.scrapeField doc tag (Value.vOtherSlice len) = none) ∧
    (∀ (doc : Document) (tag : GrabTag),
      Grabber.scrapeField doc tag Value.vOther = some Value.vOther) := by
  constructor
  · intro doc tag len s rest h
    simp [Grabber.scrapeField, h]
  · intro doc tag
    simp [Grabber.scrapeField]

/-- Witness for the amended C3: the concrete panicking slice field. -/
theorem coercion_failure_panics_or_skips_witness :
    Grabber.scrapeField docX tagA (Value.vOtherSlice 0) = none :=
  coercion_failure_panics_or_skips.1 docX tagA 0 "x" [] rfl

/-- A tag with an empty selector (an unannotated field). -/
def tagNone : GrabTag := GrabTag.mk "" "" none none

/-- A plain scalar tag with selector `title`. -/
def tagTitle : GrabTag := GrabTag.mk "title" "" none none

/-- A document with a single title node with text `Hello`. -/
def docTitle : Document :=
  Document.mk (fun s => if s = "title" then [Node.mk "Hello" []] else [])

/-- A record with one field: an unannotated (empty-selector) nested
record whose inner field selects `title` and starts at its zero
value. -/
def recNested : Fields :=
  Fields.cons tagNone
    (Value.vStruct (Fields.cons tagTitle (Value.vString "") Fields.nil)) Fields.nil

/-- `recNested` after the walk: the inner field was written. -/
def recNestedAfter : Fields :=
  Fields.cons tagNone
    (Value.vStruct (Fields.cons tagTitle (Value.vString "Hello") Fields.nil)) Fields.nil

/-- Counterexample to C7: a nested-record field whose TagSpec has an
empty selector is recursed into and mutated by the walk — it does not
keep its zero value. -/
theorem empty_selector_untouched_cex :
    Grabber.scrapeStruct docTitle recNested = some (recNestedAfter, none) ∧
    Grabber.scrapeStruct docTitle recNested ≠ some (recNested, none) := by
  constructor
  · rfl
  · intro h
    rw [show Grabber.scrapeStruct docTitle recNested = some (recNestedAfter, none) from rfl]
      at h
    simp [recNestedAfter, recNested] at h

/-- C7 amended: every scalar or sequence field (any non-struct kind)
whose TagSpec has an empty selector is left unchanged by the walk and
produces no error; a nested-record field, by contrast, is recursed
into regardless of its selector. -/
theorem empty_selector_nonstruct_untouched
    (doc : Document) (tag : GrabTag) (v : Value)
    (hsel : tag.selector = "") (hv : v.isStructKind = false) :
    Grabber.scrapeField doc tag v = some v := by
  have hfind : doc.find tag.selector = [] := by simp [Document.find, hsel]
  cases v with
  | vString s => simp [Grabber.scrapeField, Grabber.scrape, hfind]
  | vStrSlice xs => simp [Grabber.scrapeField, Grabber.scrapeSlice, hfind]
  | vOtherSlice len => simp [Grabber.scrapeField, Grabber.scrapeSlice, hfind]
  | vOther => simp [Grabber.scrapeField]
  | vStruct fields => simp [Value.isStructKind] at hv

/-- Witness for the amended C7: a concrete empty-selector string field
is untouched. -/
theorem empty_selector_nonstruct_untouched_witness :
    Grabber.scrapeField docTitle tagNone (Value.vString "z")
      = some (Value.vString "z") :=
  empty_selector_nonstruct_untouched docTitle tagNone (Value.vString "z") rfl rfl

/-- C6: nested-record fields are scraped against the whole document: a
record wrapped in `k` nested struct layers whose inner field selects
`tagT.selector` receives the cleaned text of the document's first
match for that selector, regardless of the nesting depth `k`. -/
theorem nested_record_scrapes_whole_document
    (doc : Document) (tagW tagT : GrabTag) (k : Nat) (s : String) (n : Node)
    (rest : List Node) (hfind : doc.find tagT.selector = n :: rest)
    (hfil : tagT.filter = none) (hext : tagT.extract = none) (hattr : tagT.attr = "") :
    Grabber.scrapeField doc tagW
        (nestK tagW k (Value.vStruct (Fields.cons tagT (Value.vString s) Fields.nil)))
      = some (nestK tagW k (Value.vStruct
          (Fields.cons tagT (Value.vString (trimSpace n.text)) Fields.nil))) := by
  induction k with
  | zero =>
    simp [nestK, Grabber.scrapeField, Grabber.scrapeFields, Grabber.scrape,
      hfind, hfil, hext, hattr, Grabber.clean]
  | succ k ih =>
    simp [nestK, Grabber.scrapeField, Grabber.scrapeFields, ih]

/-- Witness for C6: at depth 2, the inner `title` field receives the
document's single title text `Hello`. -/
theorem nested_record_scrapes_whole_document_witness :
    Grabber.scrapeField docTitle tagNone
        (nestK tagNone 2 (Value.vStruct (Fields.cons tagTitle (Value.vString "") Fields.nil)))
      = some (nestK tagNone 2 (Value.vStruct
          (Fields.cons tagTitle (Value.vString "Hello") Fields.nil))) :=
  nested_record_scrapes_whole_document docTitle tagNone tagTitle 2 ""
    (Node.mk "Hello" []) [] rfl rfl rfl rfl

/-- A sequence tag whose filter is `q` and whose extract pattern is
`(a)`. -/
def tagAQ : GrabTag :=
  GrabTag.mk "p" "" (some (Regex.group (Regex.char 'a'))) (some (Regex.char 'q'))

/-- A document whose every selector resolves to one node with text
`aq`. -/
def docAQ : Document := Document.mk (fun _ => [Node.mk "aq" []])

/-- Counterexample to C8: the raw value `aq` passes the filter `q`,
but the stored value is the extract result `a`; filtering the produced
sequence `["a"]` again with the same pattern removes the element. -/
theorem filter_idempotence_cex :
    Grabber.scrapeSlice docAQ tagAQ = some (Except.ok ["a"]) ∧
    List.filter (fun s => Grabber.filter s (Regex.char 'q')) ["a"] ≠ ["a"] :=
  ⟨rfl, by decide⟩

/-- Every value the `Each` loop of `scrapeSlice` emits passed the
filter, when no extract pattern rewrites values and the candidates
carry no surrounding whitespace. -/
theorem scrapeSliceLoop_all_match (re : Regex) (tag : GrabTag)
    (hfil : tag.filter = some re) (hext : tag.extract = none) :
    ∀ (nodes : List Node) (out : List String),
      (∀ n ∈ nodes, trimSpace (candidate tag n) = candidate tag n) →
      Grabber.scrapeSliceLoop tag nodes = some out →
      ∀ x ∈ out, Grabber.filter x re = true := by
  intro nodes
  induction nodes with
  | nil =>
    intro out htrim hloop x hx
    simp [Grabber.scrapeSliceLoop] at hloop
    subst hloop
    simp at hx
  | cons n ns ih =>
    intro out htrim hloop x hx
    have htn := htrim n (by simp)
    have hitem : Grabber.scrapeSliceItem tag n =
        if Grabber.filter (candidate tag n) re then some [candidate tag n]
        else some [] := by
      by_cases ha : tag.attr = ""
      · have htn2 : trimSpace n.text = n.text := by
          simpa [candidate, ha] using htn
        simp [Grabber.scrapeSliceItem, candidate, ha, hfil, Grabber.clean, hext, htn2]
      · have htn2 : trimSpace (n.attrOr tag.attr "") = n.attrOr tag.attr "" := by
          simpa [candidate, ha] using htn
        simp [Grabber.scrapeSliceItem, candidate, ha, hfil, Grabber.clean, hext, htn2]
    simp only [Grabber.scrapeSliceLoop] at hloop
    rw [hitem] at hloop
    by_cases hb : Grabber.filter (candidate tag n) re = true
    · rw [if_pos hb] at hloop
      cases hrest : Grabber.scrapeSliceLoop tag ns with
      | none => rw [hrest] at hloop; simp at hloop
      | some vs =>
        rw [hrest] at hloop
        simp at hloop
        subst hloop
        rcases List.mem_cons.mp hx with hxc | hxm
        · subst hxc; exact hb
        · exact ih vs (fun m hm => htrim m (by simp [hm])) hrest x hxm
    · rw [if_neg hb] at hloop
      cases hrest : Grabber.scrapeSliceLoop tag ns with
      | none => rw [hrest] at hloop; simp at hloop
      | some vs =>
        rw [hrest] at hloop
        simp at hloop
        subst hloop
        exact ih vs (fun m hm => htrim m (by simp [hm])) hrest x hx

/-- C8 amended: re-filtering the produced sequence with the same
pattern removes nothing provided the field has no extract pattern and
the candidate values carry no surrounding whitespace — then the stored
values are exactly the filtered candidates.  (In general `scrapeSlice`
stores cleaned values: the filter is applied to the raw candidate and
extract/trim run afterwards, so a second filtering of the output can
remove elements.) -/
theorem filter_idempotent_on_candidates
    (doc : Document) (tag : GrabTag) (re : Regex) (out : List String)
    (hfil : tag.filter = some re) (hext : tag.extract = none)
    (htrim : ∀ n ∈ doc.find tag.selector, trimSpace (candidate tag n) = candidate tag n)
    (hok : Grabber.scrapeSlice doc tag = some (Except.ok out)) :
    List.filter (fun s => Grabber.filter s re) out = out := by
  cases hfind : doc.find tag.selector with
  | nil => simp only [Grabber.scrapeSlice, hfind] at hok; simp at hok
  | cons n ns =>
    simp only [Grabber.scrapeSlice, hfind] at hok
    cases hloop : Grabber.scrapeSliceLoop tag (n :: ns) with
    | none => rw [hloop] at hok; simp at hok
    | some res =>
      rw [hloop] at hok
      simp at hok
      subst hok
      rw [hfind] at htrim
      have hall := scrapeSliceLoop_all_match re tag hfil hext (n :: ns) res htrim hloop
      exact List.filter_eq_self.mpr hall

/-- A sequence tag filtering on `q` with no extract pattern. -/
def tagQF : GrabTag := GrabTag.mk "p" "" none (some (Regex.char 'q'))

/-- A document whose every selector resolves to one node with text
`q`. -/
def docQ : Document := Document.mk (fun _ => [Node.mk "q" []])

/-- Witness for the amended C8: a concrete filtered sequence survives
a second filtering unchanged. -/
theorem filter_idempotent_on_candidates_witness :
    List.filter (fun s => Grabber.filter s (Regex.char 'q')) ["q"] = ["q"] :=
  filter_idempotent_on_candidates docQ tagQF (Regex.char 'q') ["q"]
    rfl rfl (by decide) rfl
